import Mathlib

/-!
# Verification of the ubuntu-make download-link resolvers

Shallow embedding of `src/umake/frameworks/games.py` and
`src/umake/frameworks/ide.py` (the vendor link resolvers, the privileged
helpers and their call sites), together with proofs about the claims of the
specification.

Python-level conventions of the embedding:

* `UI.return_main_screen(status_code=1)` after a `logger.error` is the
  terminal outcome `Outcome.errorExit`.
* a Python exception that escapes the function (no matching `except`
  clause) is `Outcome.uncaught <exception name>`.
* fetched pages are given to the callbacks as explicit values
  (`Option` for bodies whose fetch/parse may fail); `get_current_arch()`
  and the host `bits`/keyword of a resolver are parameters.
* Python `re` patterns are embedded with a small backtracking engine
  (`RTok`, `mAll`, `reSearchCap`) implementing the leftmost-then-greedy
  semantics of the patterns that actually occur in the source (sequences
  of literals, character classes, `.*` and `\w+`; no alternation, no
  nested quantifiers).
-/

namespace Umake

/-- `needle` occurs as a contiguous sublist of `hay`. -/
def listInfixOf (needle : List Char) : List Char → Bool
  | [] => needle.isEmpty
  | x :: xs => needle.isPrefixOf (x :: xs) || listInfixOf needle xs

/-- Python `sub in s` (substring containment). -/
def strContains (s sub : String) : Bool :=
  listInfixOf sub.toList s.toList

/-- Python `s.startswith(pre)`. -/
def strStartsWith (s pre : String) : Bool :=
  pre.toList.isPrefixOf s.toList

/-- Python `s.endswith(suf)`. -/
def strEndsWith (s suf : String) : Bool :=
  suf.toList.reverse.isPrefixOf s.toList.reverse

/-- Python `.` in a regex: any character except a newline. -/
def anyc (c : Char) : Bool := c != '\n'

/-- Python `\w` (restricted to the ASCII inputs that occur here). -/
def pyWord (c : Char) : Bool := c.isAlpha || c.isDigit || c == '_'

/-- One token of a Python regex: a literal character, a one-character
class, a greedy starred class (`.*`), or a greedy plus (`\w+`). -/
inductive RTok where
  | lit : Char → RTok
  | cls : (Char → Bool) → RTok
  | star : (Char → Bool) → RTok
  | plus : (Char → Bool) → RTok

/-- The token list of a literal regex fragment. -/
def lits (s : String) : List RTok := s.toList.map RTok.lit

/-- All lengths of prefixes of `s` matched by the token list, in the
backtracking priority order of Python `re` (greedy quantifiers try the
longest repetition first; the leftmost quantifier backtracks last). -/
def mAll : List RTok → List Char → List Nat
  | [], _ => [0]
  | RTok.lit _ :: _, [] => []
  | RTok.lit c :: ts, x :: xs =>
    if x == c then (mAll ts xs).map (· + 1) else []
  | RTok.cls _ :: _, [] => []
  | RTok.cls p :: ts, x :: xs =>
    if p x then (mAll ts xs).map (· + 1) else []
  | RTok.star p :: ts, s =>
    let n := (s.takeWhile p).length
    ((List.range (n + 1)).reverse).flatMap
      (fun k => (mAll ts (s.drop k)).map (· + k))
  | RTok.plus p :: ts, s =>
    let n := (s.takeWhile p).length
    (((List.range n).map (· + 1)).reverse).flatMap
      (fun k => (mAll ts (s.drop k)).map (· + k))

/-- Match a pattern `pre(grp)post` at the current position; return the text
captured by the group for the highest-priority match, if any. -/
def searchAt (pre grp post : List RTok) (s : List Char) : Option (List Char) :=
  ((mAll pre s).flatMap fun l1 =>
    (mAll grp (s.drop l1)).flatMap fun l2 =>
      (mAll post ((s.drop l1).drop l2)).map fun _ =>
        (s.drop l1).take l2).head?

/-- Python `re.search` for a pattern `pre(grp)post`: try every start
position from the left, returning group 1 of the first position that
matches. -/
def reSearchAux (pre grp post : List RTok) : List Char → Option (List Char)
  | [] => searchAt pre grp post []
  | x :: xs =>
    match searchAt pre grp post (x :: xs) with
    | some r => some r
    | none => reSearchAux pre grp post xs

/-- `re.search(pre(grp)post, line)` returning `group(1)`. -/
def reSearchCap (pre grp post : List RTok) (line : String) : Option String :=
  (reSearchAux pre grp post line.toList).map String.mk

/-- Python `re.match` (anchored at the start of the string), as a Bool. -/
def reMatch (toks : List RTok) (line : String) : Bool :=
  !(mAll toks line.toList).isEmpty

/-- Python `s.replace(pat, "")`: remove every occurrence of the literal
`pat`, scanning left to right.  The `Nat` argument is recursion fuel; any
fuel `≥ s.length` gives the exact semantics (each step consumes at least
one character). -/
def strRemoveAux (pat : List Char) : Nat → List Char → List Char
  | _, [] => []
  | 0, s => s
  | n + 1, x :: xs =>
    if !pat.isEmpty && pat.isPrefixOf (x :: xs) then
      strRemoveAux pat n ((x :: xs).drop pat.length)
    else
      x :: strRemoveAux pat n xs

/-- Python `s.replace(pat, "")` on `String`. -/
def strRemove (s pat : String) : String :=
  String.mk (strRemoveAux pat.toList s.toList.length s.toList)

/-- Python `re.sub('.' + w, '', s)`: remove every occurrence of
(any character, then the literal `w`), scanning left to right.  The `Nat`
argument is recursion fuel; any fuel `≥ s.length` gives the exact
semantics. -/
def reSubAnyWordAux (w : List Char) : Nat → List Char → List Char
  | _, [] => []
  | 0, s => s
  | n + 1, x :: xs =>
    if anyc x && w.isPrefixOf xs then
      reSubAnyWordAux w n (xs.drop w.length)
    else
      x :: reSubAnyWordAux w n xs

/-- Python `re.sub('.' + w, '', s)` on `String`. -/
def reSubAnyWord (s w : String) : String :=
  String.mk (reSubAnyWordAux w.toList s.toList.length s.toList)

/-- Python `s.split()` (split on whitespace runs, dropping empty parts). -/
def pySplitAux : List Char → List Char → List (List Char)
  | [], acc => if acc.isEmpty then [] else [acc.reverse]
  | c :: cs, acc =>
    if c.isWhitespace then
      if acc.isEmpty then pySplitAux cs [] else acc.reverse :: pySplitAux cs []
    else
      pySplitAux cs (c :: acc)

/-- Python `s.split()` on `String`. -/
def pySplit (s : String) : List String :=
  (pySplitAux s.toList []).map String.mk

/-- Python `s.split(sep)` for a non-empty literal separator: split at the
non-overlapping occurrences of `sep`, scanning left to right, keeping
empty parts.  The `Nat` argument is recursion fuel; any fuel
`≥ s.length` gives the exact semantics. -/
def pySplitOnAux (sep : List Char) : Nat → List Char → List Char →
    List (List Char)
  | _, [], acc => [acc.reverse]
  | 0, s, acc => [acc.reverse ++ s]
  | n + 1, x :: xs, acc =>
    if !sep.isEmpty && sep.isPrefixOf (x :: xs) then
      acc.reverse :: pySplitOnAux sep n ((x :: xs).drop sep.length) []
    else
      pySplitOnAux sep n xs (x :: acc)

/-- Python `s.split(sep)` on `String`. -/
def pySplitOn (s sep : String) : List String :=
  (pySplitOnAux sep.toList s.toList.length s.toList []).map String.mk

/-! ## Data model (`umake.tools`, `umake.network.download_center`) -/

/-- `umake.tools.ChecksumType`. -/
inductive ChecksumType where
  | md5 | sha1 | sha256 | sha512
deriving DecidableEq, Repr

/-- `umake.tools.Checksum` (a checksum type together with its value). -/
structure Checksum where
  checksum_type : ChecksumType
  checksum_value : String
deriving DecidableEq, Repr

/-- `umake.network.download_center.DownloadItem` (the fields the claims
are about: the url and the expected checksum). -/
structure DownloadItem where
  url : String
  checksum : Option Checksum := none
deriving DecidableEq, Repr

/-- Modelled from the spec: `UI.return_main_screen` and
`MainLoop` live in `umake.ui` / `umake.tools`, which are not under
`src/`; per the spec's User Interaction Surface contract
(`reportError(message)` "terminates current run with non-zero exit"),
reaching `UI.return_main_screen(status_code=1)` is a terminal outcome.
So a resolver callback ends in one of:
* `ok a` — the callback finishes normally with result `a`
  (e.g. appends its `DownloadItem`s and hands off to the pipeline);
* `errorExit` — the callback reports a `logger.error` and calls
  `UI.return_main_screen(status_code=1)`;
* `uncaught e` — a Python exception named `e` escapes the callback
  (no matching `except` clause). -/
inductive Outcome (α : Type) where
  | ok : α → Outcome α
  | errorExit : Outcome α
  | uncaught : String → Outcome α
deriving DecidableEq, Repr

/-- A parsed JSON value as handed to the resolvers by `json.loads`
(only the shapes the resolvers look at: strings, arrays, objects). -/
inductive Json where
  | str : String → Json
  | arr : List Json → Json
  | obj : List (String × Json) → Json

/-- Python `d[k]` on a parsed JSON object: the value of the first binding
of `k` (JSON objects made by `json.loads` have unique keys). -/
def jlookup (kvs : List (String × Json)) (k : String) : Option Json :=
  (kvs.find? (fun kv => kv.1 == k)).map (fun kv => kv.2)

/-- Python truthiness of a parsed JSON value (`if not download_url`):
empty strings, arrays and objects are falsy. -/
def pyTruthy : Json → Bool
  | Json.str s => !(s == "")
  | Json.arr xs => !xs.isEmpty
  | Json.obj kvs => !kvs.isEmpty

/-- Python `needle in v` for a parsed JSON value `v`: substring test on a
string, element membership on a list (only string elements can be equal
to `needle`), key membership on an object. -/
def pyInJson (needle : String) : Json → Bool
  | Json.str u => strContains u needle
  | Json.arr xs =>
    xs.any (fun x => match x with | Json.str s => s == needle | _ => false)
  | Json.obj kvs => kvs.any (fun kv => kv.1 == needle)

/-! ## `games.py`: the Superpowers resolver (JSON release API)

`Superpowers.get_metadata_and_check_license` parses the GitHub release
JSON, walks the `assets` list and keeps overwriting `download_url` with
every asset whose `browser_download_url` contains
`"linux-" + arch_trans[get_current_arch()]`; the surrounding
`try` catches only `json.JSONDecodeError` and `IndexError`. -/

/-- `Superpowers.arch_trans` (`games.py`); `none` models a `KeyError` on
an architecture missing from the table. -/
def Superpowers.arch_trans (arch : String) : Option String :=
  if arch == "amd64" then some "x64"
  else if arch == "i386" then some "ia32"
  else none

/-- The `for asset in assets` loop of
`Superpowers.get_metadata_and_check_license`, threading the running
`download_url`.  Per iteration, Python evaluates
`"linux-{}".format(self.arch_trans[get_current_arch()])` first (possible
`KeyError`), then `asset["browser_download_url"]` (possible
`KeyError`/`TypeError`), then the `in` test. -/
def Superpowers.scan_assets (arch : String) :
    List Json → Option Json → Outcome (Option Json)
  | [], acc => Outcome.ok acc
  | asset :: rest, acc =>
    match Superpowers.arch_trans arch with
    | none => Outcome.uncaught "KeyError"
    | some sub =>
      match asset with
      | Json.obj kvs =>
        match jlookup kvs "browser_download_url" with
        | none => Outcome.uncaught "KeyError"
        | some v =>
          if pyInJson ("linux-" ++ sub) v then
            Superpowers.scan_assets arch rest (some v)
          else
            Superpowers.scan_assets arch rest acc
      | _ => Outcome.uncaught "TypeError"

/-- `Superpowers.get_metadata_and_check_license` (`games.py`).
`error` is `result[self.download_page].error`; `body` is the page buffer
as parsed by `json.loads` (`none` when the buffer is not valid JSON, in
which case the caught `JSONDecodeError` leads to the error exit).
Returns the `DownloadItem` appended to `self.download_requests`. -/
def Superpowers.get_metadata_and_check_license (arch : String)
    (error : Option String) (body : Option Json) : Outcome DownloadItem :=
  if error.isSome then Outcome.errorExit
  else
    match body with
    | none => Outcome.errorExit
    | some j =>
      match j with
      | Json.obj kvs =>
        match jlookup kvs "assets" with
        | none => Outcome.uncaught "KeyError"
        | some (Json.arr assets) =>
          (match Superpowers.scan_assets arch assets none with
          | Outcome.uncaught e => Outcome.uncaught e
          | Outcome.errorExit => Outcome.errorExit
          | Outcome.ok none => Outcome.errorExit
          | Outcome.ok (some v) =>
            if !pyTruthy v then Outcome.errorExit
            else
              match v with
              | Json.str u => Outcome.ok { url := u, checksum := none }
              | _ => Outcome.uncaught "TypeError")
        | some (Json.str s) =>
          if s == "" then Outcome.errorExit else Outcome.uncaught "TypeError"
        | some (Json.obj o) =>
          if o.isEmpty then Outcome.errorExit else Outcome.uncaught "TypeError"
      | _ => Outcome.uncaught "TypeError"

/-- A release asset with the given `browser_download_url` (the shape of
one element of the GitHub release API `assets` list). -/
def mkAsset (u : String) : Json :=
  Json.obj [("browser_download_url", Json.str u)]

/-- The release payload whose `assets` are objects with the given
`browser_download_url`s (the shape of the GitHub release API answer). -/
def assetsPayload (urls : List String) : Json :=
  Json.obj [("assets", Json.arr (urls.map mkAsset))]

/-! ## `ide.py`: the LightTable resolver (JSON release API)

`LightTable.get_metadata_and_check_license` is the same loop with the
fixed needle `"linux"` and no architecture table. -/

/-- The `for asset in assets` loop of
`LightTable.get_metadata_and_check_license`. -/
def LightTable.scan_assets :
    List Json → Option Json → Outcome (Option Json)
  | [], acc => Outcome.ok acc
  | asset :: rest, acc =>
    match asset with
    | Json.obj kvs =>
      match jlookup kvs "browser_download_url" with
      | none => Outcome.uncaught "KeyError"
      | some v =>
        if pyInJson "linux" v then
          LightTable.scan_assets rest (some v)
        else
          LightTable.scan_assets rest acc
    | _ => Outcome.uncaught "TypeError"

/-- `LightTable.get_metadata_and_check_license` (`ide.py`). -/
def LightTable.get_metadata_and_check_license
    (error : Option String) (body : Option Json) : Outcome DownloadItem :=
  if error.isSome then Outcome.errorExit
  else
    match body with
    | none => Outcome.errorExit
    | some j =>
      match j with
      | Json.obj kvs =>
        match jlookup kvs "assets" with
        | none => Outcome.uncaught "KeyError"
        | some (Json.arr assets) =>
          (match LightTable.scan_assets assets none with
          | Outcome.uncaught e => Outcome.uncaught e
          | Outcome.errorExit => Outcome.errorExit
          | Outcome.ok none => Outcome.errorExit
          | Outcome.ok (some v) =>
            if !pyTruthy v then Outcome.errorExit
            else
              match v with
              | Json.str u => Outcome.ok { url := u, checksum := none }
              | _ => Outcome.uncaught "TypeError")
        | some (Json.str s) =>
          if s == "" then Outcome.errorExit else Outcome.uncaught "TypeError"
        | some (Json.obj o) =>
          if o.isEmpty then Outcome.errorExit else Outcome.uncaught "TypeError"
      | _ => Outcome.uncaught "TypeError"

/-! ## `ide.py`: the Eclipse resolver (two-stage, external checksum file)

Stage 1 (`BaseEclipse.get_metadata` driving
`BaseEclipse.parse_download_link`) scans the packages page line by line;
a line containing the edition's `download_keyword` and the host `bits`
marker enters the download section, and a `href="…" title` match builds
`self.sha512_url` and immediately fires a fetch of that checksum URL.
Stage 2 (`BaseEclipse.get_sha_and_start_download`) takes the first
whitespace token of the checksum body as the digest and removes
`.sha512` (a regex: any character then `sha512`) from the checksum URL
to recover the artifact URL. -/

/-- `re.search(r'href="(.*)" title', line).group(1)`. -/
def hrefTitleCap (line : String) : Option String :=
  reSearchCap (lits "href=\"") [RTok.star anyc] (lits "\" title") line

/-- The scan state of `BaseEclipse`: the section flag threaded through
`parse_download_link`, the instance field `self.sha512_url`, and the
checksum URLs whose fetch `parse_download_link` has fired. -/
structure EclipseScanSt where
  in_download : Bool := false
  sha512_url : Option String := none
  fired : List String := []
deriving DecidableEq, Repr

/-- `BaseEclipse.parse_download_link` (`ide.py`).  Returns `url_found`
and the updated state.  The incoming `in_download` flag is overwritten
unconditionally (`in_download = True` iff the line has both the keyword
and the bits marker, else `False`). -/
def BaseEclipse.parse_download_link (download_keyword bits : String)
    (line : String) (st : EclipseScanSt) : Bool × EclipseScanSt :=
  let in_download := strContains line download_keyword && strContains line bits
  if in_download then
    match hrefTitleCap line with
    | some cap =>
      let u := "https://www.eclipse.org/" ++ cap ++ ".sha512&r=1"
      (true, { in_download := true, sha512_url := some u,
               fired := st.fired ++ [u] })
    | none => (false, { st with in_download := true })
  else
    (false, { st with in_download := false })

/-- A line makes `BaseEclipse.parse_download_link` report `url_found`:
it carries the download keyword and the bits marker and the
`href="…" title` regex matches. -/
def eclipseLineMatches (download_keyword bits line : String) : Bool :=
  strContains line download_keyword && strContains line bits &&
    (hrefTitleCap line).isSome

/-- A fetched page for a line-scan resolver: the error field of the
`DownloadResult` and the decoded buffer lines. -/
structure PageLines where
  error : Option String := none
  lines : List String
deriving DecidableEq, Repr

/-- `BaseEclipse.get_metadata` (`ide.py`): check the fetch error, scan
every line (`url_found` keeps the first line's verdict, the state keeps
being updated), and exit with status 1 when no line matched. -/
def BaseEclipse.get_metadata (download_keyword bits : String)
    (page : PageLines) : Outcome EclipseScanSt :=
  if page.error.isSome then Outcome.errorExit
  else
    let r := page.lines.foldl
      (fun (acc : Bool × EclipseScanSt) line =>
        let s := BaseEclipse.parse_download_link download_keyword bits line acc.2
        (if !acc.1 then s.1 else acc.1, s.2))
      (false, {})
    if !r.1 then Outcome.errorExit else Outcome.ok r.2

/-- `BaseEclipse.get_sha_and_start_download` (`ide.py`): digest is
`body.split()[0]` (an empty body raises an uncaught `IndexError`), the
artifact URL is `re.sub('.sha512', '', self.sha512_url)`, and exactly one
`DownloadItem` with a SHA-512 checksum is appended. -/
def BaseEclipse.get_sha_and_start_download (sha512_url : String)
    (body : String) : Outcome (List DownloadItem) :=
  match pySplit body with
  | [] => Outcome.uncaught "IndexError"
  | sha512 :: _ =>
    let url := reSubAnyWord sha512_url "sha512"
    Outcome.ok [{ url := url,
                  checksum := some { checksum_type := ChecksumType.sha512,
                                     checksum_value := sha512 } }]

/-! ## `games.py`: the Unity3D resolver (last-match-wins line scan)

`Unity3D.get_metadata_and_check_license` scans every line whenever
`match_last_link` is set (the constructor passes `match_last_link=True`);
`parse_download_link` overwrites `self.download_url` on every matching
line, so the last qualifying link wins. -/

/-- The scan state of `Unity3D`: the section flag and the instance
fields `self.download_url` / `self.checksum`. -/
structure UnityScanSt where
  in_download : Bool := false
  download_url : Option String := none
  checksum : Option String := none
deriving DecidableEq, Repr

/-- `re.search(r'href="(http://beta.unity.*.html)" target', line).group(1)`
(the dots inside the group are regex any-characters). -/
def unityHrefCap (line : String) : Option String :=
  reSearchCap (lits "href=\"")
    (lits "http://beta" ++ [RTok.cls anyc] ++ lits "unity" ++
      [RTok.star anyc, RTok.cls anyc] ++ lits "html")
    (lits "\" target") line

/-- `re.search(r'sh: (\w+)\)', line).group(1)`. -/
def unityShaCap (line : String) : Option String :=
  reSearchCap (lits "sh: ") [RTok.plus pyWord] (lits ")") line

/-- `Unity3D.parse_download_link` (`games.py`).  Note the `suppress`
block: `url_found = True` is executed before `p.group(1)` can raise, so a
line containing `beta.unity` reports `url_found = True` even when the
`href` regex does not match. -/
def Unity3D.parse_download_link (line : String) (st : UnityScanSt) :
    Bool × UnityScanSt :=
  let (url_found, st) :=
    if strContains line "beta.unity" then
      let st := { st with in_download := true }
      match unityHrefCap line with
      | some u => (true, { st with download_url := some u })
      | none => (true, st)
    else
      (false, st)
  let st :=
    if st.in_download then
      match unityShaCap line with
      | some c => { st with checksum := some c }
      | none => st
    else st
  (url_found, st)

/-- `url_found is None` in `Unity3D.get_metadata_and_check_license`:
`url_found` only ever holds a Bool (`False` initially), so the test is
always false. -/
def urlFoundIsNone (_ : Bool) : Bool := false

/-- The line loop of `Unity3D.get_metadata_and_check_license`: a line is
parsed when `url_found is None or self.match_last_link`. -/
def Unity3D.scan_lines (match_last_link : Bool) (lines : List String) :
    Bool × UnityScanSt :=
  lines.foldl
    (fun (acc : Bool × UnityScanSt) line =>
      if urlFoundIsNone acc.1 || match_last_link then
        let s := Unity3D.parse_download_link line acc.2
        (if !acc.1 then s.1 else acc.1, s.2)
      else acc)
    (false, {})

/-- `Unity3D.get_metadata_and_check_license` (`games.py`): check the
fetch error, scan the lines (the constructor sets
`match_last_link=True`), and exit with status 1 when no line reported a
url; otherwise the scan state (with `self.download_url`) is handed to
the second fetch. -/
def Unity3D.get_metadata_and_check_license (page : PageLines) :
    Outcome UnityScanSt :=
  if page.error.isSome then Outcome.errorExit
  else
    let r := Unity3D.scan_lines true page.lines
    if !r.1 then Outcome.errorExit else Outcome.ok r.2

/-! ## `games.py`: the Stencyl and Twine resolvers (architecture-filtered
line scans driven by the generic pipeline loop) -/

/-- `Stencyl.parse_download_link` (`games.py`): `">Linux <"` raises the
section flag; inside the section the regex is
`href="(.*)"><.*64-` (or `…32-` when `get_current_arch() == "i386"`);
the spacer fragment lowers the flag.  Returns the pair the source
returns: `None` or `(url, None)`, together with the flag. -/
def Stencyl.parse_download_link (arch : String) (line : String)
    (in_download : Bool) : Option (String × Option String) × Bool :=
  let in_download := if strContains line ">Linux <" then true else in_download
  let url : Option String :=
    if in_download then
      if arch == "i386" then
        reSearchCap (lits "href=\"") [RTok.star anyc]
          (lits "\"><" ++ [RTok.star anyc] ++ lits "32-") line
      else
        reSearchCap (lits "href=\"") [RTok.star anyc]
          (lits "\"><" ++ [RTok.star anyc] ++ lits "64-") line
    else none
  let in_download :=
    if in_download && strContains line "<div class=\"spacer\"><br/><br/>" then
      false
    else in_download
  match url with
  | none => (none, in_download)
  | some u => (some (u, none), in_download)

/-- `Twine.parse_download_link` (`games.py`): the regex is
`href="(.*)" .*linux64` (or `…linux32` on i386); the returned section
flag is always `False` and the `(url, None)` pair is returned even when
`url` is `None`. -/
def Twine.parse_download_link (arch : String) (line : String)
    (_in_download : Bool) : (Option String × Option String) × Bool :=
  let url :=
    if arch == "i386" then
      reSearchCap (lits "href=\"") [RTok.star anyc]
        (lits "\" " ++ [RTok.star anyc] ++ lits "linux32") line
    else
      reSearchCap (lits "href=\"") [RTok.star anyc]
        (lits "\" " ++ [RTok.star anyc] ++ lits "linux64") line
  ((url, none), false)

/-! ## `games.py`: `Unity3D.decompress_and_install` (script-embedded
archive marker) -/

/-- `Unity3D.decompress_and_install` (`games.py`): iterate the lines of
the downloaded file and stop right after consuming the first line that
starts with `__ARCHIVE_BEGINS_HERE__`; the remaining lines (the file
handle's position) are what `super().decompress_and_install` extracts.
The model takes the file as its list of lines and returns the lines left
for extraction. -/
def Unity3D.decompress_and_install : List String → List String
  | [] => []
  | l :: ls =>
    if strStartsWith l "__ARCHIVE_BEGINS_HERE__" then ls
    else Unity3D.decompress_and_install ls

/-! ## `games.py` / `ide.py`: the privileged helpers and their call
sites -/

/-- Outcome of one privileged syscall (`os.chown` / `os.chmod`): success
or an exception by name (`os` errors are all `Exception` subclasses). -/
inductive SyscallOutcome where
  | ok : SyscallOutcome
  | raise : String → SyscallOutcome
deriving DecidableEq, Repr

/-- Outcome of `subprocess.check_output(["adduser", user, group])`:
normal output, a nonzero exit (`CalledProcessError`), or an `OSError`
(e.g. the `adduser` binary is missing). -/
inductive CheckOutputOutcome where
  | success : String → CheckOutputOutcome
  | calledProcessError : Nat → CheckOutputOutcome
  | oserror : String → CheckOutputOutcome
deriving DecidableEq, Repr

/-- Modelled from the spec: the `as_root()` context manager lives in
`umake.tools`, which is not under `src/`; per the spec's Privileged
Action Runner / root-privilege-context design it de-escalates on all
exit paths and does not swallow exceptions, so it is embedded as
transparent.  With that, `_chrome_sandbox_setuid` (`games.py`) is
`os.chown` then `os.chmod` under `as_root()`, with `except Exception`
turning any failure into `False`. -/
def chrome_sandbox_setuid (chown chmod : SyscallOutcome) : Outcome Bool :=
  match chown with
  | SyscallOutcome.raise _ => Outcome.ok false
  | SyscallOutcome.ok =>
    match chmod with
    | SyscallOutcome.raise _ => Outcome.ok false
    | SyscallOutcome.ok => Outcome.ok true

/-- `_add_to_group` (`ide.py`): `subprocess.check_output` under
`as_root()`; only `subprocess.CalledProcessError` is caught (and turned
into `False`) — any other exception, such as an `OSError`, escapes. -/
def add_to_group (r : CheckOutputOutcome) : Outcome Bool :=
  match r with
  | CheckOutputOutcome.success _ => Outcome.ok true
  | CheckOutputOutcome.calledProcessError _ => Outcome.ok false
  | CheckOutputOutcome.oserror _ => Outcome.uncaught "OSError"

/-- The gate in `Unity3D.post_install` (`games.py`): `f.result()` of the
`_chrome_sandbox_setuid` worker re-raises a worker exception; a `False`
result triggers `UI.return_main_screen(status_code=1)`; otherwise the
launcher is created. -/
def Unity3D.post_install_gate (setuid : Outcome Bool) : Outcome Unit :=
  match setuid with
  | Outcome.ok true => Outcome.ok ()
  | Outcome.ok false => Outcome.errorExit
  | Outcome.errorExit => Outcome.errorExit
  | Outcome.uncaught e => Outcome.uncaught e

/-- The gate in `Arduino.prepare_to_download_archive` (`ide.py`): when
the user was not already in the arduino group, a `False` result of the
`_add_to_group` worker triggers `UI.return_main_screen(status_code=1)`. -/
def Arduino.group_gate (was_in_arduino_group : Bool)
    (add : Outcome Bool) : Outcome Unit :=
  if was_in_arduino_group then Outcome.ok ()
  else
    match add with
    | Outcome.ok true => Outcome.ok ()
    | Outcome.ok false => Outcome.errorExit
    | Outcome.errorExit => Outcome.errorExit
    | Outcome.uncaught e => Outcome.uncaught e

/-! ## `ide.py`: the NetBeans resolver (`files.js` scan) -/

/-- The token list of a Python string interpolated into a regex, for
strings (like the NetBeans `version` `"8.1"` and `flavour` `""` /
`"-cpp"`) whose only regex metacharacter is `.` (any character). -/
def regexOfPyStr (s : String) : List RTok :=
  s.toList.map (fun c => if c == '.' then RTok.cls anyc else RTok.lit c)

/-- The compiled pattern of `BaseNetBeans.parse_download_page_callback`:
`add_file\("zip/netbeans-{version}-[0-9]{12}{flavour}.zip"` (the final
dot is a regex any-character). -/
def netbeansPreg (version flavour : String) : List RTok :=
  lits "add_file(\"zip/netbeans-" ++ regexOfPyStr version ++ lits "-" ++
    List.replicate 12 (RTok.cls Char.isDigit) ++ regexOfPyStr flavour ++
    [RTok.cls anyc] ++ lits "zip\""

/-- `BaseNetBeans.BASE_URL` (`ide.py`). -/
def netbeansBaseUrl : String := "http://download.netbeans.org/netbeans"

/-- `BaseNetBeans.parse_download_page_callback` (`ide.py`).  `body` is
the fetched `files.js` content (`none` when reading the buffer raises
the caught `AttributeError`).  The loop assigns the cleaned-up matching
line to the local `url_string` (last match wins); when no line matches,
`url_string` was never assigned and `if not url_string` raises an
uncaught `NameError`. -/
def BaseNetBeans.parse_download_page_callback (version flavour : String)
    (body : Option String) : Outcome DownloadItem :=
  match body with
  | none => Outcome.errorExit
  | some url_file =>
    let url_string := (pySplitOn url_file "\n").foldl
      (fun (acc : Option String) line =>
        if reMatch (netbeansPreg version flavour) line then
          some (strRemove (strRemove (strRemove line "add_file(") ");") "\"")
        else acc)
      none
    match url_string with
    | none => Outcome.uncaught "NameError"
    | some u =>
      if u == "" then Outcome.errorExit
      else
        let string_array := pySplitOn u ", "
        match string_array with
        | [] => Outcome.errorExit
        | url_suffix :: rest =>
          match rest.get? 1 with
          | none => Outcome.errorExit
          | some sha256 =>
            Outcome.ok
              { url := netbeansBaseUrl ++ "/" ++ version ++ "/final/" ++
                  url_suffix,
                checksum := some { checksum_type := ChecksumType.sha256,
                                   checksum_value := sha256 } }

/-! ## `ide.py`: the JetBrains resolver (JSON releases API) -/

/-- `BaseJetBrains.get_metadata_and_check_license` (`ide.py`) up to the
hand-off to the checksum fetch.  `body` is the page as parsed by
`json.loads` (`none` for a `JSONDecodeError`, which is caught).  The
steps and their exception behaviour:
* `.popitem()` on the parsed value: the last key's value of a non-empty
  object; `KeyError` on an empty object, `AttributeError` on a non-object
  — both uncaught (the `try` names only `JSONDecodeError`);
* `content[0]`: `IndexError` on an empty list is caught ("No Stable
  version available"), other type errors are uncaught;
* `download_list['downloads']['linux']['link']` and `['checksumLink']`:
  a missing key raises `KeyError`, which the `except (IndexError)`
  clause does not catch. -/
def BaseJetBrains.get_metadata_and_check_license
    (error : Option String) (body : Option Json) :
    Outcome (String × String) :=
  if error.isSome then Outcome.errorExit
  else
    match body with
    | none => Outcome.errorExit
    | some j =>
      match j with
      | Json.obj [] => Outcome.uncaught "KeyError"
      | Json.obj (kv :: kvs) =>
        let content := ((kv :: kvs).getLast (List.cons_ne_nil kv kvs)).2
        (match content with
        | Json.arr [] => Outcome.errorExit
        | Json.arr (download_list :: _) =>
          (match download_list with
          | Json.obj kvs1 =>
            (match jlookup kvs1 "downloads" with
            | none => Outcome.uncaught "KeyError"
            | some (Json.obj kvs2) =>
              (match jlookup kvs2 "linux" with
              | none => Outcome.uncaught "KeyError"
              | some (Json.obj kvs3) =>
                (match jlookup kvs3 "link" with
                | none => Outcome.uncaught "KeyError"
                | some link =>
                  match jlookup kvs3 "checksumLink" with
                  | none => Outcome.uncaught "KeyError"
                  | some checksumLink =>
                    match link, checksumLink with
                    | Json.str u, Json.str c => Outcome.ok (u, c)
                    | _, _ => Outcome.uncaught "TypeError")
              | some _ => Outcome.uncaught "TypeError")
            | some _ => Outcome.uncaught "TypeError")
          | _ => Outcome.uncaught "TypeError")
        | Json.str s =>
          if s == "" then Outcome.errorExit else Outcome.uncaught "TypeError"
        | Json.obj _ => Outcome.uncaught "KeyError")
      | _ => Outcome.uncaught "AttributeError"

/-! ## Helper lemmas -/

/-- Looking up the key of the first binding returns its value. -/
theorem jlookup_cons_self (k : String) (v : Json)
    (kvs : List (String × Json)) : jlookup ((k, v) :: kvs) k = some v := by
  simp [jlookup, List.find?]

/-- `BaseEclipse.parse_download_link` reports `url_found` exactly on the
lines satisfying `eclipseLineMatches`. -/
theorem eclipse_parse_fst (kw bits l : String) (st : EclipseScanSt) :
    (BaseEclipse.parse_download_link kw bits l st).1 =
      eclipseLineMatches kw bits l := by
  unfold BaseEclipse.parse_download_link eclipseLineMatches
  cases h1 : strContains l kw <;> cases h2 : strContains l bits <;>
    cases h3 : hrefTitleCap l <;> simp [h1, h2, h3]

/-- The `url_found` accumulator of `BaseEclipse.get_metadata` stays
`false` over a page none of whose lines matches. -/
theorem eclipse_scan_all_unmatched (kw bits : String) :
    ∀ (lines : List String) (st : EclipseScanSt),
      lines.all (fun l => !eclipseLineMatches kw bits l) = true →
      (lines.foldl
        (fun (acc : Bool × EclipseScanSt) line =>
          let s := BaseEclipse.parse_download_link kw bits line acc.2
          (if !acc.1 then s.1 else acc.1, s.2)) (false, st)).1 = false := by
  intro lines
  induction lines with
  | nil => intro st _; rfl
  | cons l ls ih =>
    intro st h
    rw [List.all_cons, Bool.and_eq_true] at h
    have h1 : eclipseLineMatches kw bits l = false := by
      have := h.1
      rwa [Bool.not_eq_true'] at this
    rw [List.foldl_cons]
    have h2 : (BaseEclipse.parse_download_link kw bits l st).1 = false := by
      rw [eclipse_parse_fst, h1]
    show (List.foldl
        (fun (acc : Bool × EclipseScanSt) line =>
          let s := BaseEclipse.parse_download_link kw bits line acc.2
          (if !acc.1 then s.1 else acc.1, s.2))
        ((BaseEclipse.parse_download_link kw bits l st).1,
         (BaseEclipse.parse_download_link kw bits l st).2) ls).1 = false
    rw [h2]
    exact ih _ h.2

/-- The asset loop of `Superpowers` leaves `download_url` untouched when
no asset's url contains the architecture needle. -/
theorem superpowers_scan_all_unmatched (arch sub : String)
    (harch : Superpowers.arch_trans arch = some sub) :
    ∀ (urls : List String) (acc : Option Json),
      urls.all (fun u => !strContains u ("linux-" ++ sub)) = true →
      Superpowers.scan_assets arch (urls.map mkAsset) acc =
        Outcome.ok acc := by
  intro urls
  induction urls with
  | nil => intro acc _; rfl
  | cons u us ih =>
    intro acc h
    rw [List.all_cons, Bool.and_eq_true] at h
    have h1 : strContains u ("linux-" ++ sub) = false := by
      have := h.1
      rwa [Bool.not_eq_true'] at this
    rw [List.map_cons]
    rw [Superpowers.scan_assets, harch]
    simp only [mkAsset, jlookup_cons_self, pyInJson, h1, Bool.false_eq_true,
      if_false]
    exact ih acc h.2

/-- `Unity3D.parse_download_link` reports `url_found` exactly on the
lines containing `beta.unity`. -/
theorem unity_parse_fst (l : String) (st : UnityScanSt) :
    (Unity3D.parse_download_link l st).1 = strContains l "beta.unity" := by
  unfold Unity3D.parse_download_link
  cases h1 : strContains l "beta.unity" <;>
    cases h2 : unityHrefCap l <;>
      simp only [h1, h2, if_true, if_false] <;>
        cases h3 : unityShaCap l <;>
          cases h4 : st.in_download <;> simp [h3, h4]

/-- On a matching line, `Unity3D.parse_download_link` overwrites
`self.download_url` with the captured link (whatever the incoming scan
state was) and reports `url_found`. -/
theorem unity_parse_match (l u : String) (st : UnityScanSt)
    (hb : strContains l "beta.unity" = true)
    (hc : unityHrefCap l = some u) :
    (Unity3D.parse_download_link l st).2.download_url = some u ∧
      (Unity3D.parse_download_link l st).1 = true := by
  unfold Unity3D.parse_download_link
  cases h3 : unityShaCap l <;> simp [hb, hc, h3]

/-- The `url_found` accumulator of the Unity3D line loop stays `false`
over a page none of whose lines contains `beta.unity`. -/
theorem unity_scan_all_unmatched :
    ∀ (lines : List String) (st : UnityScanSt),
      lines.all (fun l => !strContains l "beta.unity") = true →
      (lines.foldl
        (fun (acc : Bool × UnityScanSt) line =>
          if urlFoundIsNone acc.1 || true then
            let s := Unity3D.parse_download_link line acc.2
            (if !acc.1 then s.1 else acc.1, s.2)
          else acc) (false, st)).1 = false := by
  intro lines
  induction lines with
  | nil => intro st _; rfl
  | cons l ls ih =>
    intro st h
    rw [List.all_cons, Bool.and_eq_true] at h
    have h1 : strContains l "beta.unity" = false := by
      have := h.1
      rwa [Bool.not_eq_true'] at this
    rw [List.foldl_cons]
    have h2 : (Unity3D.parse_download_link l st).1 = false := by
      rw [unity_parse_fst, h1]
    show (List.foldl
        (fun (acc : Bool × UnityScanSt) line =>
          if urlFoundIsNone acc.1 || true then
            let s := Unity3D.parse_download_link line acc.2
            (if !acc.1 then s.1 else acc.1, s.2)
          else acc)
        ((Unity3D.parse_download_link l st).1,
         (Unity3D.parse_download_link l st).2) ls).1 = false
    rw [h2]
    exact ih _ h.2

/-! ## The claims -/

/-- C5 (confirmed): on architecture amd64 (translated to `x64`), the
Superpowers resolver applied to the two-asset release payload resolves to
the `…linux-x64…` URL exactly, appending that `DownloadItem`. -/
theorem superpowers_amd64_selects_x64_asset :
    Superpowers.get_metadata_and_check_license "amd64" none
      (some (assetsPayload ["https://x/app-linux-x64.tar.gz",
                            "https://x/app-linux-ia32.tar.gz"])) =
      Outcome.ok { url := "https://x/app-linux-x64.tar.gz",
                   checksum := none } := by
  decide

/-- C9 (confirmed): a well-formed JetBrains release payload whose first
release entry has no `downloads` key makes
`BaseJetBrains.get_metadata_and_check_license` raise a `KeyError` that
the `except (IndexError)` clause does not catch, so the run does not
reach the clean "Can't parse the download URL" error exit. -/
theorem jetbrains_missing_key_uncaught :
    BaseJetBrains.get_metadata_and_check_license none
      (some (Json.obj [("PCC",
        Json.arr [Json.obj [("date", Json.str "2016-06-02")]])])) =
      Outcome.uncaught "KeyError" ∧
    (jlookup [("date", Json.str "2016-06-02")] "downloads").isNone = true ∧
    (Outcome.uncaught "KeyError" : Outcome (String × String)) ≠
      Outcome.errorExit := by
  refine ⟨by decide, by decide, by decide⟩

/-- C1 (counterexample): on amd64, given two assets whose
`browser_download_url` both contain `linux-x64`, the Superpowers JSON
resolver selects the SECOND (last) matching asset, not the first, so the
claimed first-match rule is false. -/
theorem superpowers_first_match_counterexample :
    Superpowers.get_metadata_and_check_license "amd64" none
      (some (assetsPayload ["https://x/a-linux-x64.tar.gz",
                            "https://x/b-linux-x64.tar.gz"])) =
      Outcome.ok { url := "https://x/b-linux-x64.tar.gz",
                   checksum := none } ∧
    ("https://x/b-linux-x64.tar.gz" : String) ≠
      "https://x/a-linux-x64.tar.gz" := by
  refine ⟨by decide, by decide⟩

/-- C1 (amended): the JSON release-API resolvers (Superpowers,
LightTable) scan the whole assets list without breaking, so with two or
more matching assets the selected URL is the LAST matching asset's
`browser_download_url`, not the first. -/
theorem json_resolvers_select_last_match (u1 u2 : String)
    (h1 : strContains u1 "linux-x64" = true)
    (h2 : strContains u2 "linux-x64" = true)
    (h3 : strContains u1 "linux" = true)
    (h4 : strContains u2 "linux" = true) :
    Superpowers.get_metadata_and_check_license "amd64" none
      (some (assetsPayload [u1, u2])) =
      Outcome.ok { url := u2, checksum := none } ∧
    LightTable.get_metadata_and_check_license none
      (some (assetsPayload [u1, u2])) =
      Outcome.ok { url := u2, checksum := none } := by
  have hu2 : (u2 == "") = false := by
    by_cases e : u2 = ""
    · rw [e] at h2
      exact absurd h2 (by decide)
    · exact beq_eq_false_iff_ne.mpr e
  constructor
  · simp [Superpowers.get_metadata_and_check_license, assetsPayload, mkAsset,
      Superpowers.scan_assets, Superpowers.arch_trans, jlookup_cons_self,
      pyInJson, pyTruthy, h1, h2, hu2]
  · simp [LightTable.get_metadata_and_check_license, assetsPayload, mkAsset,
      LightTable.scan_assets, jlookup_cons_self, pyInJson, pyTruthy,
      h3, h4, hu2]

/-- C1 (witness): the amended last-match rule evaluated on a concrete
two-asset payload for both JSON resolvers. -/
theorem json_resolvers_select_last_match_witness :
    Superpowers.get_metadata_and_check_license "amd64" none
      (some (assetsPayload ["https://x/a-linux-x64.tar.gz",
                            "https://x/b-linux-x64.tar.gz"])) =
      Outcome.ok { url := "https://x/b-linux-x64.tar.gz",
                   checksum := none } ∧
    LightTable.get_metadata_and_check_license none
      (some (assetsPayload ["https://x/a-linux-x64.tar.gz",
                            "https://x/b-linux-x64.tar.gz"])) =
      Outcome.ok { url := "https://x/b-linux-x64.tar.gz",
                   checksum := none } :=
  json_resolvers_select_last_match
    "https://x/a-linux-x64.tar.gz" "https://x/b-linux-x64.tar.gz"
    (by decide) (by decide) (by decide) (by decide)

/-- C2 (counterexample): on the claimed fixture, the Eclipse two-stage
pipeline appends one SHA-512-checksummed `DownloadItem` with digest
`deadbeef`, but its URL is the sha512 URL with only `.sha512` removed —
it retains the `&r=1` suffix and does not end in `app-linux64.tar.gz`. -/
theorem eclipse_two_stage_counterexample :
    BaseEclipse.get_metadata "eclipse-java-" "x86_64"
      { lines := ["<td>eclipse-java- x86_64 <a href=\"/files/app-linux64.tar.gz\" title=\"d\">"] } =
      Outcome.ok
        { in_download := true,
          sha512_url := some "https://www.eclipse.org//files/app-linux64.tar.gz.sha512&r=1",
          fired := ["https://www.eclipse.org//files/app-linux64.tar.gz.sha512&r=1"] } ∧
    BaseEclipse.get_sha_and_start_download
      "https://www.eclipse.org//files/app-linux64.tar.gz.sha512&r=1"
      "deadbeef  app-linux64.tar.gz" =
      Outcome.ok [{ url := "https://www.eclipse.org//files/app-linux64.tar.gz&r=1",
                    checksum := some { checksum_type := ChecksumType.sha512,
                                       checksum_value := "deadbeef" } }] ∧
    strEndsWith "https://www.eclipse.org//files/app-linux64.tar.gz&r=1"
      "app-linux64.tar.gz" = false := by
  refine ⟨by decide, by decide, by decide⟩

/-- C2 (amended): on a page line with the download keyword, the bits
marker and `href="/files/app-linux64.tar.gz" title`, stage 1 stores the
checksum URL `https://www.eclipse.org//files/app-linux64.tar.gz.sha512&r=1`
and fires its fetch; stage 2, on the checksum body
`"deadbeef  app-linux64.tar.gz"`, appends exactly one `DownloadItem`
whose URL is that checksum URL with `.sha512` removed (so still carrying
the `&r=1` suffix) and whose expected checksum is a SHA-512 `Checksum`
with digest `deadbeef`, the first whitespace-delimited token of the
body. -/
theorem eclipse_two_stage_resolution :
    BaseEclipse.get_metadata "eclipse-java-" "x86_64"
      { lines := ["<td>eclipse-java- x86_64 <a href=\"/files/app-linux64.tar.gz\" title=\"d\">"] } =
      Outcome.ok
        { in_download := true,
          sha512_url := some "https://www.eclipse.org//files/app-linux64.tar.gz.sha512&r=1",
          fired := ["https://www.eclipse.org//files/app-linux64.tar.gz.sha512&r=1"] } ∧
    BaseEclipse.get_sha_and_start_download
      "https://www.eclipse.org//files/app-linux64.tar.gz.sha512&r=1"
      "deadbeef  app-linux64.tar.gz" =
      Outcome.ok [{ url := reSubAnyWord
                      "https://www.eclipse.org//files/app-linux64.tar.gz.sha512&r=1"
                      "sha512",
                    checksum := some { checksum_type := ChecksumType.sha512,
                                       checksum_value := "deadbeef" } }] ∧
    reSubAnyWord "https://www.eclipse.org//files/app-linux64.tar.gz.sha512&r=1"
      "sha512" = "https://www.eclipse.org//files/app-linux64.tar.gz&r=1" ∧
    (pySplit "deadbeef  app-linux64.tar.gz").head? = some "deadbeef" := by
  refine ⟨by decide, by decide, by decide, by decide⟩

/-- C3 (counterexample): the NetBeans resolver is a resolver whose
zero-match scan does NOT reach `UI.return_main_screen(status_code=1)`:
on a page with no matching line it raises an uncaught `NameError`
(`url_string` referenced before assignment), so the universal claim is
false. -/
theorem zero_match_error_exit_counterexample :
    BaseNetBeans.parse_download_page_callback "8.1" ""
      (some "no add_file call in this body") =
      Outcome.uncaught "NameError" ∧
    (Outcome.uncaught "NameError" : Outcome DownloadItem) ≠
      Outcome.errorExit := by
  refine ⟨by decide, by decide⟩

/-- C3 (amended): for the cited resolvers — the Eclipse line scan, the
Superpowers JSON scan, and the Unity3D line scan — zero candidate
matches over the whole fetched page lead to the
`UI.return_main_screen(status_code=1)` error exit and never to the
download stage; the exception is `BaseNetBeans`, whose zero-match path
raises an uncaught `NameError` instead. -/
theorem resolvers_zero_match_error_exit :
    (∀ kw bits lines,
      lines.all (fun l => !eclipseLineMatches kw bits l) = true →
      BaseEclipse.get_metadata kw bits { lines := lines } =
        Outcome.errorExit) ∧
    (∀ arch sub urls, Superpowers.arch_trans arch = some sub →
      urls.all (fun u => !strContains u ("linux-" ++ sub)) = true →
      Superpowers.get_metadata_and_check_license arch none
        (some (assetsPayload urls)) = Outcome.errorExit) ∧
    (∀ lines, lines.all (fun l => !strContains l "beta.unity") = true →
      Unity3D.get_metadata_and_check_license { lines := lines } =
        Outcome.errorExit) := by
  refine ⟨?_, ?_, ?_⟩
  · intro kw bits lines h
    rw [BaseEclipse.get_metadata]
    simp only [Option.isSome_none, Bool.false_eq_true, if_false,
      eclipse_scan_all_unmatched kw bits lines {} h, Bool.not_false,
      if_true]
  · intro arch sub urls harch h
    show Superpowers.get_metadata_and_check_license arch none
        (some (Json.obj [("assets", Json.arr (urls.map mkAsset))])) =
      Outcome.errorExit
    rw [Superpowers.get_metadata_and_check_license]
    simp only [Option.isSome_none, Bool.false_eq_true, if_false,
      jlookup_cons_self,
      superpowers_scan_all_unmatched arch sub harch urls none h]
  · intro lines h
    rw [Unity3D.get_metadata_and_check_license]
    simp only [Option.isSome_none, Bool.false_eq_true, if_false,
      Unity3D.scan_lines, unity_scan_all_unmatched lines {} h,
      Bool.not_false, if_true]

/-- C3 (witness): the amended zero-match property evaluated on concrete
zero-match fixtures for the three cited resolvers. -/
theorem resolvers_zero_match_error_exit_witness :
    BaseEclipse.get_metadata "eclipse-java-" "x86_64"
      { lines := ["<html>", "<body>nothing here</body>"] } =
      Outcome.errorExit ∧
    Superpowers.get_metadata_and_check_license "amd64" none
      (some (assetsPayload ["https://x/app-darwin-x64.dmg"])) =
      Outcome.errorExit ∧
    Unity3D.get_metadata_and_check_license
      { lines := ["<html>", "no links at all"] } = Outcome.errorExit :=
  ⟨resolvers_zero_match_error_exit.1 "eclipse-java-" "x86_64"
      ["<html>", "<body>nothing here</body>"] (by decide),
   resolvers_zero_match_error_exit.2.1 "amd64" "x64"
      ["https://x/app-darwin-x64.dmg"] (by decide) (by decide),
   resolvers_zero_match_error_exit.2.2 ["<html>", "no links at all"]
      (by decide)⟩

/-- C4 (confirmed): with `match_last_link` set (as Unity3D's constructor
does), the scan parses every line even after the first match, and with
three qualifying links in sequence the resolved `download_url` is the
third (last) one, not the first; resolution then proceeds with that
state. -/
theorem unity3d_last_match_wins (l1 l2 l3 u1 u2 u3 : String)
    (hb1 : strContains l1 "beta.unity" = true)
    (hc1 : unityHrefCap l1 = some u1)
    (hb2 : strContains l2 "beta.unity" = true)
    (hc2 : unityHrefCap l2 = some u2)
    (hb3 : strContains l3 "beta.unity" = true)
    (hc3 : unityHrefCap l3 = some u3)
    (hne : u1 ≠ u3) :
    (Unity3D.scan_lines true [l1, l2, l3]).2.download_url = some u3 ∧
    (Unity3D.scan_lines true [l1, l2, l3]).2.download_url ≠ some u1 ∧
    Unity3D.get_metadata_and_check_license { lines := [l1, l2, l3] } =
      Outcome.ok (Unity3D.scan_lines true [l1, l2, l3]).2 := by
  have s1 := unity_parse_match l1 u1 {} hb1 hc1
  have s2 := unity_parse_match l2 u2 (Unity3D.parse_download_link l1 {}).2
    hb2 hc2
  have s3 := unity_parse_match l3 u3
    (Unity3D.parse_download_link l2 (Unity3D.parse_download_link l1 {}).2).2
    hb3 hc3
  have hscan : Unity3D.scan_lines true [l1, l2, l3] =
      (true,
       (Unity3D.parse_download_link l3
         (Unity3D.parse_download_link l2
           (Unity3D.parse_download_link l1 {}).2).2).2) := by
    rw [Unity3D.scan_lines]
    simp only [List.foldl_cons, List.foldl_nil, urlFoundIsNone,
      Bool.or_true, if_true]
    simp [s1.2, s2.2, s3.2]
  refine ⟨by rw [hscan]; exact s3.1, ?_, ?_⟩
  · rw [hscan]
    simp only [s3.1, ne_eq, Option.some.injEq]
    exact fun e => hne e.symm
  · rw [Unity3D.get_metadata_and_check_license]
    simp only [Option.isSome_none, Bool.false_eq_true, if_false, hscan,
      Bool.not_true, if_false]

/-- C4 (witness): the last-match rule evaluated on a concrete three-link
fixture. -/
theorem unity3d_last_match_wins_witness :
    (Unity3D.scan_lines true
      ["x <a href=\"http://beta.unity3d.com/r1.html\" target=\"_b\">",
       "x <a href=\"http://beta.unity3d.com/r2.html\" target=\"_b\">",
       "x <a href=\"http://beta.unity3d.com/r3.html\" target=\"_b\">"]).2.download_url =
      some "http://beta.unity3d.com/r3.html" ∧
    (Unity3D.scan_lines true
      ["x <a href=\"http://beta.unity3d.com/r1.html\" target=\"_b\">",
       "x <a href=\"http://beta.unity3d.com/r2.html\" target=\"_b\">",
       "x <a href=\"http://beta.unity3d.com/r3.html\" target=\"_b\">"]).2.download_url ≠
      some "http://beta.unity3d.com/r1.html" ∧
    Unity3D.get_metadata_and_check_license
      { lines := ["x <a href=\"http://beta.unity3d.com/r1.html\" target=\"_b\">",
                  "x <a href=\"http://beta.unity3d.com/r2.html\" target=\"_b\">",
                  "x <a href=\"http://beta.unity3d.com/r3.html\" target=\"_b\">"] } =
      Outcome.ok (Unity3D.scan_lines true
        ["x <a href=\"http://beta.unity3d.com/r1.html\" target=\"_b\">",
         "x <a href=\"http://beta.unity3d.com/r2.html\" target=\"_b\">",
         "x <a href=\"http://beta.unity3d.com/r3.html\" target=\"_b\">"]).2 :=
  unity3d_last_match_wins
    "x <a href=\"http://beta.unity3d.com/r1.html\" target=\"_b\">"
    "x <a href=\"http://beta.unity3d.com/r2.html\" target=\"_b\">"
    "x <a href=\"http://beta.unity3d.com/r3.html\" target=\"_b\">"
    "http://beta.unity3d.com/r1.html" "http://beta.unity3d.com/r2.html"
    "http://beta.unity3d.com/r3.html"
    (by decide) (by decide) (by decide) (by decide) (by decide) (by decide)
    (by decide)

/-- C6 (counterexample): on amd64, a fixture line that carries the
32-bit (non-A) link but a `64-` marker after it makes
`Stencyl.parse_download_link` return the non-A link — even though the
fixture also offers the proper 64-bit link on its other line — so the
universal only-the-A-link claim is false. -/
theorem stencyl_arch_filter_counterexample :
    Stencyl.parse_download_link "amd64"
      ">Linux < <a href=\"http://x/app-linux32.tar.gz\"><b>64-bit</b>" false =
      (some ("http://x/app-linux32.tar.gz", none), true) ∧
    Stencyl.parse_download_link "amd64"
      "<a href=\"http://x/app-linux64.tar.gz\"><b>64-bit</b>" true =
      (some ("http://x/app-linux64.tar.gz", none), true) ∧
    ("http://x/app-linux32.tar.gz" : String) ≠ "http://x/app-linux64.tar.gz" := by
  refine ⟨by decide, by decide, by decide⟩

/-- C6 (amended): on the canonical fixture in which each line carries
one download link in the vendor's markup and a bitness marker only next
to its own link, the Stencyl and Twine parsers extract, for each
architecture, exactly the link of that architecture and reject the
other line. -/
theorem stencyl_twine_arch_filter :
    Stencyl.parse_download_link "amd64"
      ">Linux < <a href=\"http://x/stencyl-linux64.tar.gz\"><b>64-bit</b>" false =
      (some ("http://x/stencyl-linux64.tar.gz", none), true) ∧
    Stencyl.parse_download_link "amd64"
      "<a href=\"http://x/stencyl-linux32.tar.gz\"><b>32-bit</b>" true =
      (none, true) ∧
    Stencyl.parse_download_link "i386"
      ">Linux < <a href=\"http://x/stencyl-linux64.tar.gz\"><b>64-bit</b>" false =
      (none, true) ∧
    Stencyl.parse_download_link "i386"
      "<a href=\"http://x/stencyl-linux32.tar.gz\"><b>32-bit</b>" true =
      (some ("http://x/stencyl-linux32.tar.gz", none), true) ∧
    Twine.parse_download_link "amd64"
      "<a href=\"http://x/twine_64.zip\" rel=\"nofollow\">linux64</a>" false =
      ((some "http://x/twine_64.zip", none), false) ∧
    Twine.parse_download_link "amd64"
      "<a href=\"http://x/twine_32.zip\" rel=\"nofollow\">linux32</a>" false =
      ((none, none), false) ∧
    Twine.parse_download_link "i386"
      "<a href=\"http://x/twine_64.zip\" rel=\"nofollow\">linux64</a>" false =
      ((none, none), false) ∧
    Twine.parse_download_link "i386"
      "<a href=\"http://x/twine_32.zip\" rel=\"nofollow\">linux32</a>" false =
      ((some "http://x/twine_32.zip", none), false) := by
  refine ⟨by decide, by decide, by decide, by decide, by decide, by decide,
    by decide, by decide⟩

/-- C7 (confirmed): when the downloaded script contains a line starting
with `__ARCHIVE_BEGINS_HERE__`, `Unity3D.decompress_and_install`
consumes every line up to and including the first marker line before
delegating, so exactly the lines after the marker line are extracted. -/
theorem unity3d_marker_strips_header (pre post : List String) (l : String)
    (hpre : pre.all
      (fun x => !strStartsWith x "__ARCHIVE_BEGINS_HERE__") = true)
    (hl : strStartsWith l "__ARCHIVE_BEGINS_HERE__" = true) :
    Unity3D.decompress_and_install (pre ++ l :: post) = post := by
  induction pre with
  | nil => simp [Unity3D.decompress_and_install, hl]
  | cons x xs ih =>
    rw [List.all_cons, Bool.and_eq_true] at hpre
    have hx : strStartsWith x "__ARCHIVE_BEGINS_HERE__" = false := by
      have := hpre.1
      rwa [Bool.not_eq_true'] at this
    rw [List.cons_append, Unity3D.decompress_and_install]
    simp only [hx, Bool.false_eq_true, if_false]
    exact ih hpre.2

/-- C7 (witness): the marker skip evaluated on a concrete
self-extracting script. -/
theorem unity3d_marker_strips_header_witness :
    Unity3D.decompress_and_install
      ["#!/bin/sh", "echo installing",
       "__ARCHIVE_BEGINS_HERE__", "TARDATA1", "TARDATA2"] =
      ["TARDATA1", "TARDATA2"] :=
  unity3d_marker_strips_header ["#!/bin/sh", "echo installing"]
    ["TARDATA1", "TARDATA2"] "__ARCHIVE_BEGINS_HERE__"
    (by decide) (by decide)

/-- C8 (counterexample): `_add_to_group` catches only
`subprocess.CalledProcessError`; when `check_output` raises an `OSError`
(e.g. the `adduser` binary is missing), the group addition fails but the
exception propagates instead of a logged `False` return, so the
universal no-propagation claim is false. -/
theorem add_to_group_oserror_counterexample :
    add_to_group (CheckOutputOutcome.oserror "no such file: adduser") =
      Outcome.uncaught "OSError" ∧
    (Outcome.uncaught "OSError" : Outcome Bool) ≠ Outcome.ok false := by
  refine ⟨by decide, by decide⟩

/-- C8 (amended): `_chrome_sandbox_setuid` always returns a boolean
(`True` on success, `False` — logged, no exception — on any failure,
thanks to its `except Exception`); `_add_to_group` returns `True` on
success and `False` when the `adduser` command fails with
`CalledProcessError`, but lets other exceptions (e.g. `OSError`)
propagate; both call sites treat a `False` worker result as fatal via
`UI.return_main_screen(status_code=1)`. -/
theorem privileged_ops_boolean_contract :
    chrome_sandbox_setuid SyscallOutcome.ok SyscallOutcome.ok =
      Outcome.ok true ∧
    (∀ e cm, chrome_sandbox_setuid (SyscallOutcome.raise e) cm =
      Outcome.ok false) ∧
    (∀ e, chrome_sandbox_setuid SyscallOutcome.ok (SyscallOutcome.raise e) =
      Outcome.ok false) ∧
    (∀ o, add_to_group (CheckOutputOutcome.success o) = Outcome.ok true) ∧
    (∀ c, add_to_group (CheckOutputOutcome.calledProcessError c) =
      Outcome.ok false) ∧
    Unity3D.post_install_gate (Outcome.ok false) = Outcome.errorExit ∧
    Arduino.group_gate false (Outcome.ok false) = Outcome.errorExit := by
  exact ⟨rfl, fun e cm => rfl, fun e => rfl, fun o => rfl, fun c => rfl,
    rfl, rfl⟩

/-- C10 (confirmed): a `files.js` body in which no line matches the
`add_file("zip/netbeans-…")` pattern leaves the local `url_string`
unassigned, so `if not url_string` raises an uncaught `NameError` and
the intended "download page changed its syntax" error path is not
reached. -/
theorem netbeans_zero_match_raises_nameerror :
    ((pySplitOn "var PAGE_ARTIFACTS_LOCATION = 1;\nadd_file(\"zip/netbeans-8.1-x.zip\", 1, \"c\");" "\n").all
      (fun l => !reMatch (netbeansPreg "8.1" "") l)) = true ∧
    BaseNetBeans.parse_download_page_callback "8.1" ""
      (some "var PAGE_ARTIFACTS_LOCATION = 1;\nadd_file(\"zip/netbeans-8.1-x.zip\", 1, \"c\");") =
      Outcome.uncaught "NameError" ∧
    (Outcome.uncaught "NameError" : Outcome DownloadItem) ≠
      Outcome.errorExit := by
  refine ⟨by decide, by decide, by decide⟩

end Umake
